import Mathlib

/-
Verification development for llm/run_quantization.py (PaddleNLP).

The script is a single linear main() procedure.  We embed its control
flow shallowly: the five parsed argument groups become structures whose
fields are exactly the fields the script reads; effects supplied by the
external framework (filesystem existence tests, properties of the loaded
model and tokenizer) are inputs gathered in an Env structure; library
calls with no bearing on control flow (logging, print_config, device
setup, sequence-parallel hooks, the resume-from-checkpoint sample skip,
the actual training / quantization kernels) are not modelled.  The
observable behaviour of a run is a trace of events (model construction,
dataset loads, quantization applications) together with either an error
(ValueError / NotImplementedError, with the message of the source) or a
final state recording every configuration decision the script made.
-/

namespace RunQuantization

/-- GenerateArgument: its fields are only passed through to the trainer. -/
structure GenArgs where
deriving DecidableEq, Repr, Inhabited

/-- The fields of QuantArgument that the script branches on. -/
structure QuantArgs where
  do_ptq : Bool
  do_qat : Bool
  do_gptq : Bool
  load_quant_model : Bool
deriving DecidableEq, Repr, Inhabited

/-- The fields of ModelArgument that the script branches on. -/
structure ModelArgs where
  flash_mask : Bool
  continue_training : Bool
deriving DecidableEq, Repr, Inhabited

/-- The fields of DataArgument that the script branches on. -/
structure DataArgs where
  dataset_name_or_path : Option String
  zero_padding : Bool
  eval_with_do_generation : Bool
  lazy : Bool
  max_length : Nat
  greedy_zero_padding : Bool
  pad_to_max_length : Bool
deriving DecidableEq, Repr, Inhabited

/-- The fields of TrainingArguments that the script branches on. -/
structure TrainingArgs where
  fp16_opt_level : String
  fp16 : Bool
  bf16 : Bool
  pipeline_parallel_degree : Nat
  do_eval : Bool
  do_predict : Bool
  autotuner_benchmark : Bool
  sequence_parallel : Bool
  tensor_parallel_degree : Nat
deriving DecidableEq, Repr, Inhabited

/-- The five argument groups produced by PdArgumentParser. -/
structure ParsedArgs where
  gen : GenArgs
  quant : QuantArgs
  model : ModelArgs
  data : DataArgs
  training : TrainingArgs
deriving DecidableEq, Repr, Inhabited

/-- The external parser: results of parse_json_file_and_cmd_lines and of
parse_args_into_dataclasses.  Both return the same five groups. -/
structure ParserBehavior where
  fromJsonFile : ParsedArgs
  fromCmdLines : ParsedArgs
deriving DecidableEq, Repr, Inhabited

/-- The external world: filesystem and properties of the objects the
framework returns (model, tokenizer). -/
structure Env where
  pathExists : String → Bool
  modelIsLoRA : Bool
  modelInFlashMaskSupportList : Bool
  modelUseFlashAttention : Bool
  modelClassName : String
  tokenizerHasChatTemplate : Bool

/-- Model dtype chosen at lines 103-111. -/
inductive Dtype where
  | float16
  | bfloat16
  | float32
deriving DecidableEq, Repr

/-- Model class chosen at lines 146-151. -/
inductive ModelClass where
  | autoModelForCausalLM
  | autoModelForCausalLMPipe
deriving DecidableEq, Repr

/-- Example-conversion function chosen at lines 306-311. -/
inductive TransFn where
  | convertExampleCommon
  | modelConvertExample
deriving DecidableEq, Repr

/-- Where a dataset split is loaded from (lines 189-284). -/
inductive DatasetSource where
  | jsonFile (path : String)
  | jsonGlob (dir : String)
  | registered (name : String) (split : String)
deriving DecidableEq, Repr

/-- Observable events of a run, in program order. -/
inductive Event where
  | modelLoaded
  | datasetLoaded (split : String) (src : DatasetSource)
  | qatApplied
  | ptqApplied
  | gptqApplied
deriving DecidableEq, Repr

/-- The two exception kinds the script raises. -/
inductive Err where
  | valueError (msg : String)
  | notImplementedError (msg : String)
deriving DecidableEq, Repr

/-- Which zero-padding wrapper class is used (lines 346-349). -/
inductive Wrapper where
  | iterable
  | mapDS
deriving DecidableEq, Repr

/-- Keyword arguments of the trans_func map call on one dataset. -/
structure MapSpec where
  is_test : Bool
  zero_padding : Bool
  flash_mask : Bool
deriving DecidableEq, Repr

/-- Arguments of the ZeroPadding wrapper applied to one dataset; the dev
dataset wrapper passes no greedy_zero_padding argument. -/
structure WrapSpec where
  kind : Wrapper
  max_length : Nat
  greedy : Option Bool
deriving DecidableEq, Repr

/-- Sources of the three datasets (None when a split is not loaded). -/
structure DatasetPlan where
  train : Option DatasetSource
  dev : Option DatasetSource
  ptq : Option DatasetSource
deriving DecidableEq, Repr

/-- Map and wrap decisions for the three datasets (lines 313-381). -/
structure DatasetPipeline where
  trainMap : Option MapSpec
  ptqMap : Option MapSpec
  devMap : Option MapSpec
  trainWrap : Option WrapSpec
  ptqWrap : Option WrapSpec
  devWrap : Option WrapSpec
deriving DecidableEq, Repr

/-- Padding mode of DataCollatorForSeq2Seq: the string max_length or the
boolean True (pad to longest). -/
inductive PaddingMode where
  | maxLength
  | longest
deriving DecidableEq, Repr

/-- Arguments of the data collator (lines 415-427 and 443-451). -/
structure CollatorSpec where
  max_length : Option Nat
  padding : PaddingMode
  return_attention_mask : Bool
deriving DecidableEq, Repr

/-- Which compute_metrics function the trainer receives (lines 429-434). -/
inductive MetricsChoice where
  | noMetrics
  | doGenerationMetrics
  | standardMetrics
deriving DecidableEq, Repr

/-- Every configuration decision of a run that completes without raising. -/
structure FinalState where
  dtype : Dtype
  modelClass : ModelClass
  transFn : TransFn
  plan : DatasetPlan
  pipeline : DatasetPipeline
  collator : CollatorSpec
  metrics : MetricsChoice
  zero_padding : Bool
  use_flash_attention : Bool
  eval_with_do_generation : Bool
  zeroPaddingCallback : Bool
deriving DecidableEq, Repr

/-- How the argument groups are obtained (line 70). -/
inductive ParseSource where
  | jsonFileAndCmdLines
  | cmdLinesOnly
deriving DecidableEq, Repr

/-- Equality decision for Except values with decidable components. -/
instance instDecEqExcept {ε α : Type} [DecidableEq ε] [DecidableEq α] :
    DecidableEq (Except ε α) := fun a b =>
  match a, b with
  | Except.ok x, Except.ok y =>
    if h : x = y then isTrue (by rw [h])
    else isFalse (by intro hc; injection hc; exact h (by assumption))
  | Except.ok _, Except.error _ => isFalse (by intro hc; exact Except.noConfusion hc)
  | Except.error _, Except.ok _ => isFalse (by intro hc; exact Except.noConfusion hc)
  | Except.error x, Except.error y =>
    if h : x = y then isTrue (by rw [h])
    else isFalse (by intro hc; injection hc; exact h (by assumption))

/-- Python str.endswith as a suffix test on the character list. -/
def strEndsWith (s suffx : String) : Bool := List.isSuffixOf suffx.toList s.toList

/-- Line 70: a JSON config file is used when sys.argv has at least two
entries and sys.argv[1], the first command-line argument, ends in .json. -/
def chooseParseSource (argv : List String) : ParseSource :=
  if 2 ≤ argv.length ∧ strEndsWith (argv.getD 1 "") ".json" = true then
    ParseSource.jsonFileAndCmdLines
  else
    ParseSource.cmdLinesOnly

/-- Lines 69-73: parse into the five dataclass groups from the chosen
source. -/
def parsePhase (argv : List String) (pb : ParserBehavior) : ParsedArgs :=
  match chooseParseSource argv with
  | ParseSource.jsonFileAndCmdLines => pb.fromJsonFile
  | ParseSource.cmdLinesOnly => pb.fromCmdLines

/-- Line 80: sum([quant_args.do_ptq, quant_args.do_qat, quant_args.do_gptq]). -/
def quantFlagSum (q : QuantArgs) : Nat :=
  (if q.do_ptq then 1 else 0) + (if q.do_qat then 1 else 0) + (if q.do_gptq then 1 else 0)

def multiQuantMsg : String :=
  "--do_ptq, --do_gptq and --do_qat cannot work at the same time. Please choose only one at a time"

/-- Lines 80-83: at most one quantization strategy may be selected. -/
def multiQuantCheck (q : QuantArgs) : Option Err :=
  if 1 < quantFlagSum q then some (Err.valueError multiQuantMsg) else none

def dtypeMsg : String := "Please specific dtype: --fp16 or --bf16"

/-- Lines 103-111: dtype selection from fp16_opt_level, fp16 and bf16. -/
def computeDtype (t : TrainingArgs) : Except Err Dtype :=
  if t.fp16_opt_level = "O2" then
    if t.fp16 then Except.ok Dtype.float16
    else if t.bf16 then Except.ok Dtype.bfloat16
    else Except.error (Err.valueError dtypeMsg)
  else Except.ok Dtype.float32

def pipeMsg : String := "Plese set eval_with_do_generation to false in pipeline parallel mode."

/-- Lines 146-151: model class selection, with the pipeline-parallel
generation-eval check. -/
def chooseModelClass (t : TrainingArgs) (d : DataArgs) : Except Err ModelClass :=
  if 1 < t.pipeline_parallel_degree then
    if d.eval_with_do_generation = true ∧ t.do_eval = true then
      Except.error (Err.valueError pipeMsg)
    else
      Except.ok ModelClass.autoModelForCausalLMPipe
  else Except.ok ModelClass.autoModelForCausalLM

/-- Lines 163-166: when flash_mask is set without zero padding or without
flash attention, both are forced on (a warning is logged, nothing is
raised).  Returns the new (data_args.zero_padding,
model.config.use_flash_attention) pair. -/
def applyFlashMaskFix (m : ModelArgs) (zp ufa : Bool) : Bool × Bool :=
  if m.flash_mask && (!zp || !ufa) then (true, true) else (zp, ufa)

def flashMaskNotSupportSuffix : String := " not support flash mask."

/-- Lines 168-169: flash_mask requires a model class in
flash_mask_support_list. -/
def flashMaskSupportCheck (m : ModelArgs) (inSupportList : Bool) (className : String) :
    Option Err :=
  if m.flash_mask && !inSupportList then
    some (Err.notImplementedError (className ++ flashMaskNotSupportSuffix))
  else none

/-- os.path.join for the relative components the script uses. -/
def pathJoin (a b : String) : String := a ++ "/" ++ b

def datasetMissingMsg : String := "Please specific dataset name or path (got None)"

def quantJsonRequiredMsg (p : String) : String :=
  "Quant strategy requires quant.json or train.json in " ++ p

def quantFolderRequiredMsg (p : String) : String :=
  "Quant strategy requires quant or train folder in " ++ p

/-- Line 189-193: the single-file layout is recognized when any of
train.json, dev.json, quant.json exists under the dataset path. -/
def singleFileLayout (fs : String → Bool) (p : String) : Bool :=
  fs (pathJoin p "train.json") || fs (pathJoin p "dev.json") || fs (pathJoin p "quant.json")

/-- Line 229-233: the directory layout is recognized when any of the
subdirectories train, dev, quant exists under the dataset path. -/
def dirLayout (fs : String → Bool) (p : String) : Bool :=
  fs (pathJoin p "train") || fs (pathJoin p "dev") || fs (pathJoin p "quant")

/-- Dataset-load events for an optional split source. -/
def loadEvents (split : String) : Option DatasetSource → List Event
  | some src => [Event.datasetLoaded split src]
  | none => []

/-- The dataset loads performed in one resolution branch, in program order
(train, then dev, then the PTQ calibration set). -/
def planEvents (train dev ptq : Option DatasetSource) : List Event :=
  loadEvents "train" train ++ loadEvents "dev" dev ++ loadEvents "ptq" ptq

/-- Lines 187-284: resolution of the train, dev and PTQ-calibration
datasets, with the trace of loads performed before a failure. -/
def resolveDatasets (pathOpt : Option String) (q : QuantArgs) (t : TrainingArgs)
    (fs : String → Bool) : List Event × Except Err DatasetPlan :=
  match pathOpt with
  | none => ([], Except.error (Err.valueError datasetMissingMsg))
  | some p =>
    if singleFileLayout fs p then
      let train := if q.do_qat then some (DatasetSource.jsonFile (pathJoin p "train.json")) else none
      let dev := if t.do_eval then some (DatasetSource.jsonFile (pathJoin p "dev.json")) else none
      if fs (pathJoin p "quant.json") then
        let ptq := some (DatasetSource.jsonFile (pathJoin p "quant.json"))
        (planEvents train dev ptq, Except.ok ⟨train, dev, ptq⟩)
      else if fs (pathJoin p "train.json") then
        let ptq := some (DatasetSource.jsonFile (pathJoin p "train.json"))
        (planEvents train dev ptq, Except.ok ⟨train, dev, ptq⟩)
      else
        (planEvents train dev none, Except.error (Err.valueError (quantJsonRequiredMsg p)))
    else if dirLayout fs p then
      let train := if q.do_qat then some (DatasetSource.jsonGlob (pathJoin p "train")) else none
      let dev := if t.do_eval then some (DatasetSource.jsonGlob (pathJoin p "dev")) else none
      if fs (pathJoin p "quant") then
        let ptq := some (DatasetSource.jsonGlob (pathJoin p "quant"))
        (planEvents train dev ptq, Except.ok ⟨train, dev, ptq⟩)
      else if fs (pathJoin p "train") then
        let ptq := some (DatasetSource.jsonGlob (pathJoin p "train"))
        (planEvents train dev ptq, Except.ok ⟨train, dev, ptq⟩)
      else
        (planEvents train dev none, Except.error (Err.valueError (quantFolderRequiredMsg p)))
    else
      let train := if q.do_qat then some (DatasetSource.registered p "train") else none
      let dev := if t.do_eval then some (DatasetSource.registered p "dev") else none
      let ptq :=
        if q.do_ptq || q.do_gptq || q.load_quant_model then
          some (DatasetSource.registered p "train")
        else none
      (planEvents train dev ptq, Except.ok ⟨train, dev, ptq⟩)

/-- Lines 327-332: zero padding is turned off for the eval dataset when it
conflicts with eval_with_do_generation. -/
def eval_zero_padding (d : DataArgs) : Bool :=
  if d.zero_padding && d.eval_with_do_generation then false else d.zero_padding

/-- Lines 313-381: map arguments and ZeroPadding wrapping for the three
datasets.  The has flags say whether each dataset is present (not None). -/
def buildPipeline (d : DataArgs) (m : ModelArgs) (hasTrain hasPtq hasDev : Bool) :
    DatasetPipeline :=
  let ezp := eval_zero_padding d
  let wrapKind := if d.lazy then Wrapper.iterable else Wrapper.mapDS
  { trainMap := if hasTrain then some ⟨false, d.zero_padding, m.flash_mask⟩ else none
    ptqMap := if hasPtq then some ⟨false, d.zero_padding, m.flash_mask⟩ else none
    devMap := if hasDev then some ⟨d.eval_with_do_generation, ezp, m.flash_mask⟩ else none
    trainWrap :=
      if d.zero_padding && hasTrain then
        some ⟨wrapKind, d.max_length, some d.greedy_zero_padding⟩
      else none
    ptqWrap :=
      if d.zero_padding && hasPtq then
        some ⟨wrapKind, d.max_length, some d.greedy_zero_padding⟩
      else none
    devWrap :=
      if d.zero_padding && ezp && hasDev then some ⟨wrapKind, d.max_length, none⟩ else none }

/-- Lines 415-427 and 443-451: collator padding configuration. -/
def chooseCollator (t : TrainingArgs) (d : DataArgs) (m : ModelArgs) : CollatorSpec :=
  if 1 < t.pipeline_parallel_degree || t.sequence_parallel || t.autotuner_benchmark
      || d.zero_padding || d.pad_to_max_length then
    ⟨some d.max_length, PaddingMode.maxLength, !m.flash_mask⟩
  else ⟨none, PaddingMode.longest, !m.flash_mask⟩

/-- Lines 429-434: compute_metrics selection. -/
def chooseMetrics (t : TrainingArgs) (d : DataArgs) : MetricsChoice :=
  if 1 < t.pipeline_parallel_degree then MetricsChoice.noMetrics
  else if d.eval_with_do_generation then MetricsChoice.doGenerationMetrics
  else MetricsChoice.standardMetrics

def loraMsg : String :=
  "PTQ strategy not supported for LoRA model. Please merge lora parameters to pretrain model first."

/-- Lines 461-469: QAT runs when do_qat (no model-compatibility check). -/
def qatPhase (q : QuantArgs) : List Event × Option Err :=
  if q.do_qat then ([Event.qatApplied], none) else ([], none)

/-- Lines 472-506: PTQ runs when do_ptq, after the LoRA compatibility
check. -/
def ptqPhase (q : QuantArgs) (isLoRA : Bool) : List Event × Option Err :=
  if q.do_ptq then
    if isLoRA then ([], some (Err.notImplementedError loraMsg))
    else ([Event.ptqApplied], none)
  else ([], none)

/-- Lines 508-517: GPTQ runs when do_gptq, after the LoRA compatibility
check. -/
def gptqPhase (q : QuantArgs) (isLoRA : Bool) : List Event × Option Err :=
  if q.do_gptq then
    if isLoRA then ([], some (Err.notImplementedError loraMsg))
    else ([Event.gptqApplied], none)
  else ([], none)

/-- Lines 461-517 in program order: QAT, then PTQ, then GPTQ. -/
def quantPhases (q : QuantArgs) (isLoRA : Bool) : List Event × Option Err :=
  let r1 := qatPhase q
  match r1.2 with
  | some e => (r1.1, some e)
  | none =>
    let r2 := ptqPhase q isLoRA
    match r2.2 with
    | some e => (r1.1 ++ r2.1, some e)
    | none =>
      let r3 := gptqPhase q isLoRA
      match r3.2 with
      | some e => (r1.1 ++ r2.1 ++ r3.1, some e)
      | none => (r1.1 ++ r2.1 ++ r3.1, none)

/-- Lines 537-541: loading a quantized model repeats the LoRA check. -/
def loadQuantCheck (q : QuantArgs) (isLoRA : Bool) : Option Err :=
  if q.load_quant_model && !q.do_ptq && isLoRA then
    some (Err.notImplementedError loraMsg)
  else none

/-- True when the train dataset was wrapped in ZeroPaddingIterableDataset
(line 453 isinstance check deciding the callback list). -/
def isIterWrap : Option WrapSpec → Bool
  | some w => w.kind = Wrapper.iterable
  | none => false

/-- The body of main() after argument parsing, lines 75-575, as a trace of
events together with an error or a final state. -/
def mainBody (a : ParsedArgs) (env : Env) : List Event × Except Err FinalState :=
  match multiQuantCheck a.quant with
  | some e => ([], Except.error e)
  | none =>
    match computeDtype a.training with
    | Except.error e => ([], Except.error e)
    | Except.ok dtype =>
      match chooseModelClass a.training a.data with
      | Except.error e => ([], Except.error e)
      | Except.ok mclass =>
        let evModel := [Event.modelLoaded]
        let fix := applyFlashMaskFix a.model a.data.zero_padding env.modelUseFlashAttention
        match flashMaskSupportCheck a.model env.modelInFlashMaskSupportList env.modelClassName with
        | some e => (evModel, Except.error e)
        | none =>
          let ewdg := if env.tokenizerHasChatTemplate then false else a.data.eval_with_do_generation
          let d := { a.data with zero_padding := fix.1, eval_with_do_generation := ewdg }
          let rd := resolveDatasets d.dataset_name_or_path a.quant a.training env.pathExists
          match rd.2 with
          | Except.error e => (evModel ++ rd.1, Except.error e)
          | Except.ok plan =>
            let transFn :=
              if 1 < a.training.pipeline_parallel_degree then TransFn.convertExampleCommon
              else TransFn.modelConvertExample
            let pipeline := buildPipeline d a.model plan.train.isSome plan.ptq.isSome plan.dev.isSome
            let collator := chooseCollator a.training d a.model
            let metrics := chooseMetrics a.training d
            let qp := quantPhases a.quant env.modelIsLoRA
            match qp.2 with
            | some e => (evModel ++ rd.1 ++ qp.1, Except.error e)
            | none =>
              let predictEvents :=
                if a.training.do_predict then
                  [Event.datasetLoaded "test"
                    (DatasetSource.jsonFile (pathJoin (d.dataset_name_or_path.getD "") "test.json"))]
                else []
              match loadQuantCheck a.quant env.modelIsLoRA with
              | some e => (evModel ++ rd.1 ++ qp.1 ++ predictEvents, Except.error e)
              | none =>
                (evModel ++ rd.1 ++ qp.1 ++ predictEvents,
                 Except.ok
                   { dtype := dtype
                     modelClass := mclass
                     transFn := transFn
                     plan := plan
                     pipeline := pipeline
                     collator := collator
                     metrics := metrics
                     zero_padding := d.zero_padding
                     use_flash_attention := fix.2
                     eval_with_do_generation := d.eval_with_do_generation
                     zeroPaddingCallback := isIterWrap pipeline.trainWrap })

/-- Lines 68-73 and onward: main parses the argument groups and runs the
body. -/
def main (argv : List String) (pb : ParserBehavior) (env : Env) :
    List Event × Except Err FinalState :=
  mainBody (parsePhase argv pb) env

/-- A training configuration with every validated flag in its benign
position. -/
def tDefault : TrainingArgs :=
  { fp16_opt_level := "O1", fp16 := false, bf16 := false, pipeline_parallel_degree := 1,
    do_eval := false, do_predict := false, autotuner_benchmark := false,
    sequence_parallel := false, tensor_parallel_degree := 1 }

/-- A data configuration naming a registered dataset. -/
def dDefault : DataArgs :=
  { dataset_name_or_path := some "ds", zero_padding := false, eval_with_do_generation := false,
    lazy := false, max_length := 8, greedy_zero_padding := false, pad_to_max_length := false }

def mDefault : ModelArgs := { flash_mask := false, continue_training := false }

def qDefault : QuantArgs :=
  { do_ptq := false, do_qat := false, do_gptq := false, load_quant_model := false }

def aDefault : ParsedArgs :=
  { gen := {}, quant := qDefault, model := mDefault, data := dDefault, training := tDefault }

def envDefault : Env :=
  { pathExists := fun _ => false, modelIsLoRA := false, modelInFlashMaskSupportList := true,
    modelUseFlashAttention := true, modelClassName := "LlamaForCausalLM",
    tokenizerHasChatTemplate := false }

def pbDefault : ParserBehavior := { fromJsonFile := aDefault, fromCmdLines := aDefault }

/-- Two quantization strategies selected at once. -/
def aMulti : ParsedArgs :=
  { aDefault with quant := { qDefault with do_ptq := true, do_qat := true } }

/-- fp16_opt_level O2 with neither fp16 nor bf16. -/
def aO2 : ParsedArgs :=
  { aDefault with training := { tDefault with fp16_opt_level := "O2" } }

def aO2fp16 : ParsedArgs :=
  { aDefault with training := { tDefault with fp16_opt_level := "O2", fp16 := true } }

def aO2bf16 : ParsedArgs :=
  { aDefault with training := { tDefault with fp16_opt_level := "O2", bf16 := true } }

/-- Pipeline parallel with generation-based evaluation enabled. -/
def aPipeBad : ParsedArgs :=
  { aDefault with
    training := { tDefault with pipeline_parallel_degree := 2, do_eval := true },
    data := { dDefault with eval_with_do_generation := true } }

/-- Pipeline parallel with the generation-eval check passing. -/
def aPipeGood : ParsedArgs :=
  { aDefault with training := { tDefault with pipeline_parallel_degree := 2 } }

/-- No dataset name or path given. -/
def aNoPath : ParsedArgs :=
  { aDefault with data := { dDefault with dataset_name_or_path := none } }

def aPtq : ParsedArgs := { aDefault with quant := { qDefault with do_ptq := true } }

def aGptq : ParsedArgs := { aDefault with quant := { qDefault with do_gptq := true } }

def envLoRA : Env :=
  { pathExists := fun _ => false, modelIsLoRA := true, modelInFlashMaskSupportList := true,
    modelUseFlashAttention := true, modelClassName := "LoRAModel",
    tokenizerHasChatTemplate := false }

/-- flash_mask requested while zero padding is off. -/
def aFlash : ParsedArgs := { aDefault with model := { mDefault with flash_mask := true } }

/-- Zero padding together with generation-based evaluation. -/
def dZpGen : DataArgs :=
  { dDefault with zero_padding := true, eval_with_do_generation := true }

/-- The final state of a run of aFlash under envDefault, where the
flash-mask fix forced zero_padding and use_flash_attention on. -/
def stFlash : FinalState :=
  { dtype := Dtype.float32, modelClass := ModelClass.autoModelForCausalLM,
    transFn := TransFn.modelConvertExample,
    plan := { train := none, dev := none, ptq := none },
    pipeline := { trainMap := none, ptqMap := none, devMap := none,
                  trainWrap := none, ptqWrap := none, devWrap := none },
    collator := { max_length := some 8, padding := PaddingMode.maxLength,
                  return_attention_mask := false },
    metrics := MetricsChoice.standardMetrics,
    zero_padding := true, use_flash_attention := true,
    eval_with_do_generation := false, zeroPaddingCallback := false }

/-- A dataset directory holding only dev.json. -/
def envDevOnly : Env :=
  { pathExists := fun s => s == "ds/dev.json", modelIsLoRA := false,
    modelInFlashMaskSupportList := true, modelUseFlashAttention := true,
    modelClassName := "LlamaForCausalLM", tokenizerHasChatTemplate := false }

theorem multiQuantCheck_none_iff (q : QuantArgs) :
    multiQuantCheck q = none ↔ quantFlagSum q ≤ 1 := by
  unfold multiQuantCheck
  split <;> rename_i h <;> simp <;> omega

/-- Claim C1: when more than one of do_ptq, do_qat, do_gptq is true, main
raises the ValueError about conflicting strategies with an empty event
trace, hence before any model or dataset is loaded; when at most one of
them is true this check does not raise. -/
theorem claimC1_multi_quant_flags (a : ParsedArgs) (env : Env) :
    (1 < quantFlagSum a.quant →
      mainBody a env = ([], Except.error (Err.valueError multiQuantMsg))) ∧
    (quantFlagSum a.quant ≤ 1 → multiQuantCheck a.quant = none) := by
  constructor
  · intro h
    simp [mainBody, multiQuantCheck, h]
  · intro h
    exact (multiQuantCheck_none_iff a.quant).mpr h

theorem claimC1_witness :
    mainBody aMulti envDefault = ([], Except.error (Err.valueError multiQuantMsg)) ∧
    multiQuantCheck qDefault = none :=
  ⟨(claimC1_multi_quant_flags aMulti envDefault).1 (by decide),
   (claimC1_multi_quant_flags aDefault envDefault).2 (by decide)⟩

/-- Claim C5: with fp16_opt_level O2 and neither fp16 nor bf16, main raises
the ValueError asking for a dtype; O2 with fp16 gives float16, O2 with bf16
(and not fp16) gives bfloat16, and any level other than O2 gives float32. -/
theorem claimC5_dtype_selection (a : ParsedArgs) (env : Env) :
    (a.training.fp16_opt_level = "O2" → a.training.fp16 = false → a.training.bf16 = false →
      computeDtype a.training = Except.error (Err.valueError dtypeMsg) ∧
      (quantFlagSum a.quant ≤ 1 →
        mainBody a env = ([], Except.error (Err.valueError dtypeMsg)))) ∧
    (a.training.fp16_opt_level = "O2" → a.training.fp16 = true →
      computeDtype a.training = Except.ok Dtype.float16) ∧
    (a.training.fp16_opt_level = "O2" → a.training.fp16 = false → a.training.bf16 = true →
      computeDtype a.training = Except.ok Dtype.bfloat16) ∧
    (a.training.fp16_opt_level ≠ "O2" → computeDtype a.training = Except.ok Dtype.float32) := by
  refine ⟨?_, ?_, ?_, ?_⟩
  · intro h1 h2 h3
    have hd : computeDtype a.training = Except.error (Err.valueError dtypeMsg) := by
      simp [computeDtype, h1, h2, h3]
    refine ⟨hd, ?_⟩
    intro hq
    have hq' := (multiQuantCheck_none_iff a.quant).mpr hq
    simp [mainBody, hq', hd]
  · intro h1 h2
    simp [computeDtype, h1, h2]
  · intro h1 h2 h3
    simp [computeDtype, h1, h2, h3]
  · intro h1
    simp [computeDtype, h1]

theorem claimC5_witness :
    mainBody aO2 envDefault = ([], Except.error (Err.valueError dtypeMsg)) ∧
    computeDtype aO2fp16.training = Except.ok Dtype.float16 ∧
    computeDtype aO2bf16.training = Except.ok Dtype.bfloat16 ∧
    computeDtype aDefault.training = Except.ok Dtype.float32 :=
  ⟨((claimC5_dtype_selection aO2 envDefault).1 (by decide) (by decide) (by decide)).2 (by decide),
   (claimC5_dtype_selection aO2fp16 envDefault).2.1 (by decide) (by decide),
   (claimC5_dtype_selection aO2bf16 envDefault).2.2.1 (by decide) (by decide) (by decide),
   (claimC5_dtype_selection aDefault envDefault).2.2.2 (by decide)⟩

/-- Claim C6: with pipeline_parallel_degree above 1, eval_with_do_generation
and do_eval both true, main raises the corresponding ValueError; when the
degree is above 1 and the check passes, the model class is the pipeline
variant AutoModelForCausalLMPipe. -/
theorem claimC6_pipeline_parallel (a : ParsedArgs) (env : Env) :
    (1 < a.training.pipeline_parallel_degree → a.data.eval_with_do_generation = true →
      a.training.do_eval = true →
      chooseModelClass a.training a.data = Except.error (Err.valueError pipeMsg) ∧
      (quantFlagSum a.quant ≤ 1 → ∀ dt, computeDtype a.training = Except.ok dt →
        mainBody a env = ([], Except.error (Err.valueError pipeMsg)))) ∧
    (1 < a.training.pipeline_parallel_degree →
      ¬(a.data.eval_with_do_generation = true ∧ a.training.do_eval = true) →
      chooseModelClass a.training a.data = Except.ok ModelClass.autoModelForCausalLMPipe) := by
  constructor
  · intro h1 h2 h3
    have hc : chooseModelClass a.training a.data = Except.error (Err.valueError pipeMsg) := by
      simp [chooseModelClass, h1, h2, h3]
    refine ⟨hc, ?_⟩
    intro hq dt hdt
    have hq' := (multiQuantCheck_none_iff a.quant).mpr hq
    simp [mainBody, hq', hdt, hc]
  · intro h1 h2
    simp [chooseModelClass, h1, h2]

theorem claimC6_witness :
    mainBody aPipeBad envDefault = ([], Except.error (Err.valueError pipeMsg)) ∧
    chooseModelClass aPipeGood.training aPipeGood.data =
      Except.ok ModelClass.autoModelForCausalLMPipe :=
  ⟨((claimC6_pipeline_parallel aPipeBad envDefault).1 (by decide) (by decide) (by decide)).2
      (by decide) Dtype.float32 (by decide),
   (claimC6_pipeline_parallel aPipeGood envDefault).2 (by decide) (by decide)⟩

/-- Claim C7: the five argument groups come from the JSON config file
combined with the remaining flags exactly when the process has at least
one command-line argument whose first entry ends in .json, and from the
command-line flags alone otherwise; in both modes the parse yields the
five groups (generation, quantization, model, data, training). -/
theorem claimC7_parse_modes (argv : List String) (pb : ParserBehavior) :
    (chooseParseSource argv = ParseSource.jsonFileAndCmdLines ↔
      ∃ prog arg1 rest, argv = prog :: arg1 :: rest ∧ strEndsWith arg1 ".json" = true) ∧
    (chooseParseSource argv = ParseSource.jsonFileAndCmdLines →
      parsePhase argv pb = pb.fromJsonFile) ∧
    (chooseParseSource argv = ParseSource.cmdLinesOnly →
      parsePhase argv pb = pb.fromCmdLines) ∧
    (∃ g q m d t, parsePhase argv pb = ParsedArgs.mk g q m d t) := by
  refine ⟨⟨?_, ?_⟩, ?_, ?_, ?_⟩
  · intro h
    unfold chooseParseSource at h
    by_cases hc : 2 ≤ argv.length ∧ strEndsWith (argv.getD 1 "") ".json" = true
    · rcases argv with _ | ⟨p, _ | ⟨f, rest⟩⟩
      · simp at hc
      · simp at hc
      · exact ⟨p, f, rest, rfl, by simpa using hc.2⟩
    · rw [if_neg hc] at h
      exact absurd h (by simp)
  · rintro ⟨p, f, r, rfl, hf⟩
    unfold chooseParseSource
    rw [if_pos ⟨by simp, by simpa using hf⟩]
  · intro h
    unfold parsePhase
    rw [h]
  · intro h
    unfold parsePhase
    rw [h]
  · exact ⟨_, _, _, _, _, rfl⟩

theorem loadEvents_mem {s : String} {o : Option DatasetSource} {e : Event}
    (h : e ∈ loadEvents s o) : ∃ src, e = Event.datasetLoaded s src := by
  cases o with
  | none => simp [loadEvents] at h
  | some src =>
    simp [loadEvents] at h
    exact ⟨src, h⟩

theorem planEvents_mem {train dev ptq : Option DatasetSource} {e : Event}
    (h : e ∈ planEvents train dev ptq) : ∃ s src, e = Event.datasetLoaded s src := by
  simp only [planEvents, List.mem_append] at h
  rcases h with (h | h) | h
  · obtain ⟨src, rfl⟩ := loadEvents_mem h
    exact ⟨_, src, rfl⟩
  · obtain ⟨src, rfl⟩ := loadEvents_mem h
    exact ⟨_, src, rfl⟩
  · obtain ⟨src, rfl⟩ := loadEvents_mem h
    exact ⟨_, src, rfl⟩

/-- Every event emitted by the dataset-resolution phase is a dataset load. -/
theorem resolveDatasets_events (pathOpt : Option String) (q : QuantArgs) (t : TrainingArgs)
    (fs : String → Bool) :
    ∀ e ∈ (resolveDatasets pathOpt q t fs).1, ∃ s src, e = Event.datasetLoaded s src := by
  intro e he
  cases pathOpt with
  | none => simp [resolveDatasets] at he
  | some p =>
    simp only [resolveDatasets] at he
    repeat' split at he
    all_goals exact planEvents_mem he

/-- Claim C2: when dataset_name_or_path is None and the earlier argument
checks pass, main raises the ValueError naming the missing dataset path,
with only the model-construction event in the trace: no dataset was loaded
and nothing was retried. -/
theorem claimC2_missing_dataset_path (a : ParsedArgs) (env : Env) (dt : Dtype) (mc : ModelClass)
    (h1 : multiQuantCheck a.quant = none)
    (h2 : computeDtype a.training = Except.ok dt)
    (h3 : chooseModelClass a.training a.data = Except.ok mc)
    (h4 : flashMaskSupportCheck a.model env.modelInFlashMaskSupportList env.modelClassName = none)
    (h5 : a.data.dataset_name_or_path = none) :
    mainBody a env = ([Event.modelLoaded], Except.error (Err.valueError datasetMissingMsg)) ∧
    ∀ e ∈ (mainBody a env).1, ∀ s src, e ≠ Event.datasetLoaded s src := by
  have heq : mainBody a env
      = ([Event.modelLoaded], Except.error (Err.valueError datasetMissingMsg)) := by
    simp [mainBody, h1, h2, h3, h4, h5, resolveDatasets]
  refine ⟨heq, ?_⟩
  intro e he s src
  rw [heq] at he
  rcases List.mem_singleton.mp he with rfl
  simp

theorem claimC2_witness :
    mainBody aNoPath envDefault
      = ([Event.modelLoaded], Except.error (Err.valueError datasetMissingMsg)) :=
  (claimC2_missing_dataset_path aNoPath envDefault Dtype.float32 ModelClass.autoModelForCausalLM
    (by decide) (by decide) (by decide) (by decide) (by decide)).1

/-- Claim C3: when do_ptq (or do_gptq) is set, the earlier checks pass, the
datasets resolve, and the loaded model is a LoRAModel, main raises the
NotImplementedError about LoRA before applying any quantization (no QAT,
PTQ or GPTQ application event is in the trace); when the model is not a
LoRAModel the LoRA compatibility checks of the quantization phases never
raise. -/
theorem claimC3_lora_check (a : ParsedArgs) (env : Env) (dt : Dtype) (mc : ModelClass)
    (devs : List Event) (plan : DatasetPlan)
    (h1 : multiQuantCheck a.quant = none)
    (h2 : computeDtype a.training = Except.ok dt)
    (h3 : chooseModelClass a.training a.data = Except.ok mc)
    (h4 : flashMaskSupportCheck a.model env.modelInFlashMaskSupportList env.modelClassName = none)
    (h5 : resolveDatasets a.data.dataset_name_or_path a.quant a.training env.pathExists
        = (devs, Except.ok plan))
    (h6 : a.quant.do_ptq = true ∨ a.quant.do_gptq = true)
    (h7 : env.modelIsLoRA = true) :
    (mainBody a env).2 = Except.error (Err.notImplementedError loraMsg) ∧
    (∀ e ∈ (mainBody a env).1,
      e ≠ Event.qatApplied ∧ e ≠ Event.ptqApplied ∧ e ≠ Event.gptqApplied) ∧
    (∀ q : QuantArgs, (quantPhases q false).2 = none) := by
  have hsum := (multiQuantCheck_none_iff a.quant).mp h1
  have hqp : quantPhases a.quant true = ([], some (Err.notImplementedError loraMsg)) := by
    rcases h6 with hptq | hgptq
    · have hqat : a.quant.do_qat = false := by
        cases hq : a.quant.do_qat
        · rfl
        · cases hg : a.quant.do_gptq <;> simp [quantFlagSum, hptq, hq, hg] at hsum
      simp [quantPhases, qatPhase, ptqPhase, hqat, hptq]
    · have hqat : a.quant.do_qat = false := by
        cases hq : a.quant.do_qat
        · rfl
        · cases hp : a.quant.do_ptq <;> simp [quantFlagSum, hgptq, hq, hp] at hsum
      have hptq : a.quant.do_ptq = false := by
        cases hp : a.quant.do_ptq
        · rfl
        · cases hq : a.quant.do_qat <;> simp [quantFlagSum, hgptq, hp, hq] at hsum
      simp [quantPhases, qatPhase, ptqPhase, gptqPhase, hqat, hptq, hgptq]
  have heq : mainBody a env
      = (Event.modelLoaded :: devs, Except.error (Err.notImplementedError loraMsg)) := by
    simp [mainBody, h1, h2, h3, h4, h5, h7, hqp]
  refine ⟨by rw [heq], ?_, ?_⟩
  · intro e he
    rw [heq] at he
    rcases List.mem_cons.mp he with rfl | hdev
    · exact ⟨by simp, by simp, by simp⟩
    · obtain ⟨s, src, rfl⟩ := resolveDatasets_events a.data.dataset_name_or_path a.quant
        a.training env.pathExists e (by rw [h5]; exact hdev)
      exact ⟨by simp, by simp, by simp⟩
  · intro q
    rcases q with ⟨ptq, qat, gptq, lqm⟩
    cases ptq <;> cases qat <;> cases gptq <;> rfl

theorem claimC3_witness :
    (mainBody aPtq envLoRA).2 = Except.error (Err.notImplementedError loraMsg) :=
  (claimC3_lora_check aPtq envLoRA Dtype.float32 ModelClass.autoModelForCausalLM
    [Event.datasetLoaded "ptq" (DatasetSource.registered "ds" "train")]
    ⟨none, none, some (DatasetSource.registered "ds" "train")⟩
    (by decide) (by decide) (by decide) (by decide) (by decide) (Or.inl (by decide))
    (by decide)).1

theorem claimC7_witness :
    chooseParseSource ["run_quantization.py", "cfg.json", "--do_ptq"] =
      ParseSource.jsonFileAndCmdLines ∧
    parsePhase ["run_quantization.py", "cfg.json", "--do_ptq"] pbDefault =
      pbDefault.fromJsonFile ∧
    parsePhase ["run_quantization.py", "--do_ptq"] pbDefault = pbDefault.fromCmdLines :=
  ⟨(claimC7_parse_modes ["run_quantization.py", "cfg.json", "--do_ptq"] pbDefault).1.mpr
      ⟨"run_quantization.py", "cfg.json", ["--do_ptq"], rfl, by decide⟩,
   (claimC7_parse_modes ["run_quantization.py", "cfg.json", "--do_ptq"] pbDefault).2.1
      (by decide),
   (claimC7_parse_modes ["run_quantization.py", "--do_ptq"] pbDefault).2.2.1 (by decide)⟩

/-- Claim C4: dataset resolution recognizes the single-file layout first
(any of train.json, dev.json, quant.json under the dataset path), then the
directory layout (any of the subdirectories train, dev, quant), then falls
back to treating the path as a registered dataset name; in both
file-system layouts the PTQ calibration set is quant.json (resp. the quant
directory) when it exists and train.json (resp. the train directory)
otherwise, while train and dev come from the corresponding file (resp.
directory) when they are loaded at all. -/
theorem claimC4_dataset_layouts (q : QuantArgs) (t : TrainingArgs) (fs : String → Bool)
    (p : String) :
    (singleFileLayout fs p = true →
      (fs (pathJoin p "quant.json") = true →
        (resolveDatasets (some p) q t fs).2 = Except.ok
          ⟨if q.do_qat then some (DatasetSource.jsonFile (pathJoin p "train.json")) else none,
           if t.do_eval then some (DatasetSource.jsonFile (pathJoin p "dev.json")) else none,
           some (DatasetSource.jsonFile (pathJoin p "quant.json"))⟩) ∧
      (fs (pathJoin p "quant.json") = false → fs (pathJoin p "train.json") = true →
        (resolveDatasets (some p) q t fs).2 = Except.ok
          ⟨if q.do_qat then some (DatasetSource.jsonFile (pathJoin p "train.json")) else none,
           if t.do_eval then some (DatasetSource.jsonFile (pathJoin p "dev.json")) else none,
           some (DatasetSource.jsonFile (pathJoin p "train.json"))⟩)) ∧
    (singleFileLayout fs p = false → dirLayout fs p = true →
      (fs (pathJoin p "quant") = true →
        (resolveDatasets (some p) q t fs).2 = Except.ok
          ⟨if q.do_qat then some (DatasetSource.jsonGlob (pathJoin p "train")) else none,
           if t.do_eval then some (DatasetSource.jsonGlob (pathJoin p "dev")) else none,
           some (DatasetSource.jsonGlob (pathJoin p "quant"))⟩) ∧
      (fs (pathJoin p "quant") = false → fs (pathJoin p "train") = true →
        (resolveDatasets (some p) q t fs).2 = Except.ok
          ⟨if q.do_qat then some (DatasetSource.jsonGlob (pathJoin p "train")) else none,
           if t.do_eval then some (DatasetSource.jsonGlob (pathJoin p "dev")) else none,
           some (DatasetSource.jsonGlob (pathJoin p "train"))⟩)) ∧
    (singleFileLayout fs p = false → dirLayout fs p = false →
      (resolveDatasets (some p) q t fs).2 = Except.ok
        ⟨if q.do_qat then some (DatasetSource.registered p "train") else none,
         if t.do_eval then some (DatasetSource.registered p "dev") else none,
         if q.do_ptq || q.do_gptq || q.load_quant_model then
           some (DatasetSource.registered p "train")
         else none⟩) := by
  refine ⟨fun h1 => ⟨fun h2 => ?_, fun h2 h3 => ?_⟩,
    fun h1 h2 => ⟨fun h3 => ?_, fun h3 h4 => ?_⟩, fun h1 h2 => ?_⟩
  · simp [resolveDatasets, h1, h2]
  · simp [resolveDatasets, h1, h2, h3]
  · simp [resolveDatasets, h1, h2, h3]
  · simp [resolveDatasets, h1, h2, h3, h4]
  · simp [resolveDatasets, h1, h2]

theorem claimC4_witness :
    (resolveDatasets (some "ds") qDefault tDefault (fun s => s == "ds/quant.json")).2
      = Except.ok ⟨none, none, some (DatasetSource.jsonFile "ds/quant.json")⟩ ∧
    (resolveDatasets (some "ds") qDefault tDefault (fun s => s == "ds/train.json")).2
      = Except.ok ⟨none, none, some (DatasetSource.jsonFile "ds/train.json")⟩ ∧
    (resolveDatasets (some "ds") qDefault tDefault (fun s => s == "ds/quant")).2
      = Except.ok ⟨none, none, some (DatasetSource.jsonGlob "ds/quant")⟩ ∧
    (resolveDatasets (some "ds") qDefault tDefault (fun s => s == "ds/train")).2
      = Except.ok ⟨none, none, some (DatasetSource.jsonGlob "ds/train")⟩ ∧
    (resolveDatasets (some "ds") aPtq.quant tDefault (fun _ => false)).2
      = Except.ok ⟨none, none, some (DatasetSource.registered "ds" "train")⟩ :=
  ⟨((claimC4_dataset_layouts qDefault tDefault (fun s => s == "ds/quant.json") "ds").1
      (by decide)).1 (by decide),
   ((claimC4_dataset_layouts qDefault tDefault (fun s => s == "ds/train.json") "ds").1
      (by decide)).2 (by decide) (by decide),
   ((claimC4_dataset_layouts qDefault tDefault (fun s => s == "ds/quant") "ds").2.1
      (by decide) (by decide)).1 (by decide),
   ((claimC4_dataset_layouts qDefault tDefault (fun s => s == "ds/train") "ds").2.1
      (by decide) (by decide)).2 (by decide) (by decide),
   (claimC4_dataset_layouts aPtq.quant tDefault (fun _ => false) "ds").2.2
      (by decide) (by decide)⟩

/-- Claim C9: when zero_padding and eval_with_do_generation are both true,
zero padding is disabled only for the evaluation dataset: dev is mapped
with zero_padding false and is not wrapped in a ZeroPadding dataset, while
the train and PTQ calibration datasets (when present) are wrapped in the
iterable wrapper if lazy and the map wrapper otherwise, with max_length
equal to data_args.max_length. -/
theorem claimC9_eval_zero_padding (d : DataArgs) (m : ModelArgs) (hasTrain hasPtq : Bool)
    (h1 : d.zero_padding = true) (h2 : d.eval_with_do_generation = true) :
    (buildPipeline d m hasTrain hasPtq true).devMap
      = some ⟨d.eval_with_do_generation, false, m.flash_mask⟩ ∧
    (buildPipeline d m hasTrain hasPtq true).devWrap = none ∧
    (hasTrain = true → (buildPipeline d m hasTrain hasPtq true).trainWrap
      = some ⟨if d.lazy then Wrapper.iterable else Wrapper.mapDS, d.max_length,
              some d.greedy_zero_padding⟩) ∧
    (hasPtq = true → (buildPipeline d m hasTrain hasPtq true).ptqWrap
      = some ⟨if d.lazy then Wrapper.iterable else Wrapper.mapDS, d.max_length,
              some d.greedy_zero_padding⟩) := by
  refine ⟨?_, ?_, ?_, ?_⟩
  · simp [buildPipeline, eval_zero_padding, h1, h2]
  · simp [buildPipeline, eval_zero_padding, h1, h2]
  · intro ht
    simp [buildPipeline, eval_zero_padding, h1, h2, ht]
  · intro hp
    simp [buildPipeline, eval_zero_padding, h1, h2, hp]

theorem claimC9_witness :
    (buildPipeline dZpGen mDefault true true true).devMap = some ⟨true, false, false⟩ ∧
    (buildPipeline dZpGen mDefault true true true).devWrap = none ∧
    (buildPipeline dZpGen mDefault true true true).trainWrap
      = some ⟨Wrapper.mapDS, 8, some false⟩ ∧
    (buildPipeline dZpGen mDefault true true true).ptqWrap
      = some ⟨Wrapper.mapDS, 8, some false⟩ :=
  ⟨(claimC9_eval_zero_padding dZpGen mDefault true true (by decide) (by decide)).1,
   (claimC9_eval_zero_padding dZpGen mDefault true true (by decide) (by decide)).2.1,
   (claimC9_eval_zero_padding dZpGen mDefault true true (by decide) (by decide)).2.2.1 rfl,
   (claimC9_eval_zero_padding dZpGen mDefault true true (by decide) (by decide)).2.2.2 rfl⟩

theorem applyFlashMaskFix_of_flash {m : ModelArgs} (zp ufa : Bool)
    (h : m.flash_mask = true) : applyFlashMaskFix m zp ufa = (true, true) := by
  cases zp <;> cases ufa <;> simp [applyFlashMaskFix, h]

/-- Claim C8: an inconsistent flash-mask configuration is forced rather
than rejected: with flash_mask set, the fix of lines 163-166 yields
zero_padding and use_flash_attention both true without raising; the
support check raises NotImplementedError exactly when flash_mask is set
and the model class is outside the support list; and any run that
completes with flash_mask set ends with zero_padding and
use_flash_attention true. -/
theorem claimC8_flash_mask_forcing :
    (∀ (m : ModelArgs) (zp ufa : Bool), m.flash_mask = true →
      applyFlashMaskFix m zp ufa = (true, true)) ∧
    (∀ (m : ModelArgs) (sup : Bool) (name : String),
      flashMaskSupportCheck m sup name = none ↔ (m.flash_mask = false ∨ sup = true)) ∧
    (∀ (a : ParsedArgs) (env : Env) (evs : List Event) (st : FinalState),
      a.model.flash_mask = true → mainBody a env = (evs, Except.ok st) →
      st.zero_padding = true ∧ st.use_flash_attention = true) := by
  refine ⟨fun m zp ufa h => applyFlashMaskFix_of_flash zp ufa h, ?_, ?_⟩
  · intro m sup name
    cases hm : m.flash_mask <;> cases hs : sup <;>
      simp [flashMaskSupportCheck, hm, hs]
  · intro a env evs st hm heq
    have hfix := applyFlashMaskFix_of_flash (m := a.model) a.data.zero_padding
      env.modelUseFlashAttention hm
    simp only [mainBody] at heq
    repeat' split at heq
    all_goals simp at heq
    all_goals
      obtain ⟨-, hst⟩ := heq
      subst hst
      exact ⟨by simp [hfix], by simp [hfix]⟩

theorem claimC8_witness :
    applyFlashMaskFix { flash_mask := true, continue_training := false } false false
      = (true, true) ∧
    flashMaskSupportCheck { flash_mask := true, continue_training := false } true
      "LlamaForCausalLM" = none ∧
    stFlash.zero_padding = true ∧ stFlash.use_flash_attention = true :=
  ⟨claimC8_flash_mask_forcing.1 { flash_mask := true, continue_training := false }
      false false (by decide),
   (claimC8_flash_mask_forcing.2.1 { flash_mask := true, continue_training := false }
      true "LlamaForCausalLM").mpr (Or.inr rfl),
   (claimC8_flash_mask_forcing.2.2 aFlash envDefault [Event.modelLoaded] stFlash
      (by decide) (by decide)).1,
   (claimC8_flash_mask_forcing.2.2 aFlash envDefault [Event.modelLoaded] stFlash
      (by decide) (by decide)).2⟩

/-- Claim C10: in the single-file layout where only dev.json exists
(neither quant.json nor train.json), main raises the ValueError demanding
quant.json or train.json even though no quantization flag is set, so an
evaluation-only run over such a directory fails. -/
theorem claimC10_eval_only_single_file (a : ParsedArgs) (env : Env) (dt : Dtype)
    (mc : ModelClass) (p : String)
    (h1 : multiQuantCheck a.quant = none)
    (h2 : computeDtype a.training = Except.ok dt)
    (h3 : chooseModelClass a.training a.data = Except.ok mc)
    (h4 : flashMaskSupportCheck a.model env.modelInFlashMaskSupportList env.modelClassName = none)
    (h5 : a.data.dataset_name_or_path = some p)
    (h6 : env.pathExists (pathJoin p "dev.json") = true)
    (h7 : env.pathExists (pathJoin p "train.json") = false)
    (h8 : env.pathExists (pathJoin p "quant.json") = false)
    (_h9 : a.quant.do_ptq = false) (h10 : a.quant.do_qat = false)
    (_h11 : a.quant.do_gptq = false) :
    (mainBody a env).2 = Except.error (Err.valueError (quantJsonRequiredMsg p)) := by
  have hl : singleFileLayout env.pathExists p = true := by
    simp [singleFileLayout, h6, h7, h8]
  simp [mainBody, h1, h2, h3, h4, h5, resolveDatasets, hl, h7, h8, h10]

theorem claimC10_witness :
    (mainBody aDefault envDevOnly).2
      = Except.error (Err.valueError (quantJsonRequiredMsg "ds")) :=
  claimC10_eval_only_single_file aDefault envDevOnly Dtype.float32
    ModelClass.autoModelForCausalLM "ds" (by decide) (by decide) (by decide) (by decide)
    (by decide) (by decide) (by decide) (by decide) (by decide) (by decide) (by decide)

end RunQuantization
